import Mathlib

/-!
Verification development for the BOT repository: a shallow embedding of the
signal-evaluation engine (indicator library, indicator pipeline, signal
evaluator, target calculator, scheduling loop, backtest/reverse runner)
together with theorems about it.

Conventions of the embedding:
* Python/pandas floats are modelled by `ℚ`; an IEEE NaN is modelled by `none`
  in `Option ℚ` (pandas comparisons against NaN are `False`, `pd.isna`
  detects it).  The numeric literals of the source (`1e-8`, thresholds,
  percentages) are exact rationals, so no rounding issue is hidden.
* A pandas `Series` over a frame of `n` rows is a `List` of length `n`;
  positionally defined series (rolling windows, `diff`) are built with
  `byPos`, recursively defined ones (`ewm(..., adjust=False)`) by explicit
  structural recursion.
* Python object mutation (needed only for the frame property of
  `compute_indicators`) is made explicit by a heap: a list of data frames
  indexed by position, where `df.copy()` allocates a fresh slot and column
  assignment updates one slot.
-/

namespace Bot

/-- One OHLCV candle, one row of the fetched frame
(`{timestamp, open, high, low, close, volume}`). -/
structure Candle where
  timestamp : Int := 0
  open_ : ℚ := 0
  high : ℚ := 0
  low : ℚ := 0
  close : ℚ := 0
  volume : ℚ := 0
deriving DecidableEq, Repr, Inhabited

/-- Build a series positionally: entry `i` (for `i < l.length`) is `g l i`.
This is how pandas' positionally defined series (`rolling`, `diff`) are
rendered. -/
def byPos {α β : Type} (g : List α → Nat → β) (l : List α) : List β :=
  (List.range l.length).map (g l)

/-- Pandas `series.rolling(period).mean()` (src/utils.py `sma`, also the
`vol_avg_10` column of src/strategy.py): mean of the trailing `period`
values, `NaN` until `period` values are available. -/
def sma (period : Nat) (series : List ℚ) : List (Option ℚ) :=
  byPos (fun l i =>
    if period ≤ i + 1 then
      some ((((l.take (i + 1)).drop (i + 1 - period)).sum) / period)
    else none) series

/-- One step of `ewm(..., adjust=False).mean()` recursive smoothing. -/
def ewmStep (a prev x : ℚ) : ℚ := (1 - a) * prev + a * x

/-- Tail of the `ewm(span, adjust=False).mean()` recursion, given the
previous smoothed value. -/
def emaGo (a prev : ℚ) : List ℚ → List ℚ
  | [] => []
  | x :: xs => ewmStep a prev x :: emaGo a (ewmStep a prev x) xs

/-- Smoothing factor `2/(span+1)` of `ewm(span=period)`. -/
def spanAlpha (period : Nat) : ℚ := 2 / ((period : ℚ) + 1)

/-- Pandas `series.ewm(span=period, adjust=False).mean()` (src/utils.py `ema`):
seeded by the first value, defined from index 0 on. -/
def ema (period : Nat) (series : List ℚ) : List ℚ :=
  match series with
  | [] => []
  | x :: xs => x :: emaGo (spanAlpha period) x xs

/-- Pandas `series.diff()`: `NaN` at index 0, else `l[i] - l[i-1]`. -/
def diffL (series : List ℚ) : List (Option ℚ) :=
  byPos (fun l i =>
    if i = 0 then none else some (l.getD i 0 - l.getD (i - 1) 0)) series

/-- Pandas `series.rolling(period).mean()` over a series that may contain `NaN`
(default `min_periods = period`): the mean of the trailing window when it is
full and `NaN`-free, else `NaN`. -/
def rollingMeanOpt (period : Nat) (series : List (Option ℚ)) : List (Option ℚ) :=
  byPos (fun l i =>
    let w := (l.take (i + 1)).drop (i + 1 - period)
    if period ≤ i + 1 && w.all Option.isSome then
      some ((w.filterMap id).sum / period)
    else none) series

/-- The clip `delta.clip(lower=0)` entrywise (NaN passes through). -/
def clipLower0 (l : List (Option ℚ)) : List (Option ℚ) :=
  l.map (Option.map (fun d => max d 0))

/-- The clip `-1 * delta.clip(upper=0)` entrywise (NaN passes through). -/
def negClipUpper0 (l : List (Option ℚ)) : List (Option ℚ) :=
  l.map (Option.map (fun d => -(min d 0)))

/-- Elementwise binary operation on two `NaN`-able series; `NaN` if either
side is `NaN`. -/
def zipNaN (f : ℚ → ℚ → ℚ) (a b : List (Option ℚ)) : List (Option ℚ) :=
  List.zipWith (fun x y =>
    match x, y with
    | some x, some y => some (f x y)
    | _, _ => none) a b

namespace Utils

/-- src/utils.py `rsi`: Wilder-style RSI over rolling means, with the zero
average-loss division guarded by adding the constant `1e-8` (exactly
`1/100000000`).  The denominator `avg_loss + 1e-8` is strictly positive
because losses are clipped to be nonnegative, so the division never hits
zero. -/
def rsi (period : Nat) (series : List ℚ) : List (Option ℚ) :=
  let delta := diffL series
  let gain := clipLower0 delta
  let loss := negClipUpper0 delta
  let avg_gain := rollingMeanOpt period gain
  let avg_loss := rollingMeanOpt period loss
  let rs := zipNaN (fun g l => g / (l + 1 / 100000000)) avg_gain avg_loss
  rs.map (Option.map (fun r => 100 - 100 / (1 + r)))

end Utils

namespace BotMain

/-- The utils section of src/main.py, `rsi`: identical to src/utils.py `rsi`
except for the guard — `avg_loss.replace(0, math.nan)` turns a zero average
loss into `NaN`, which then propagates through the division (the replaced
denominator is never zero, so pandas' division-by-zero `inf` cannot arise
here). -/
def rsi (period : Nat) (series : List ℚ) : List (Option ℚ) :=
  let delta := diffL series
  let gain := clipLower0 delta
  let loss := negClipUpper0 delta
  let avg_gain := rollingMeanOpt period gain
  let avg_loss := rollingMeanOpt period loss
  let avg_loss_replaced := avg_loss.map (fun x =>
    match x with
    | some v => if v = 0 then none else some v
    | none => none)
  let rs := zipNaN (fun g l => g / l) avg_gain avg_loss_replaced
  rs.map (Option.map (fun r => 100 - 100 / (1 + r)))

end BotMain

namespace Strategy

/-- src/strategy.py `StrategyConfig`: all strategy configuration parameters.
The defaults are the values assigned in `StrategyConfig.__init__`. -/
structure StrategyConfig where
  ema_short : Nat := 20
  ema_long : Nat := 50
  rsi_period : Nat := 14
  macd_fast : Nat := 12
  macd_slow : Nat := 26
  macd_sign : Nat := 9
  vol_multiplier : ℚ := 13 / 10
  tp_percent : ℚ := 1 / 2
  sl_percent : ℚ := 1 / 4
  trend_threshold_pct : ℚ := 3 / 20
deriving DecidableEq, Repr, Inhabited

/-- The global `strategy_cfg` object of src/strategy.py (module-level
default configuration). -/
def strategy_cfg : StrategyConfig := {}

/-- One row of the indicator-augmented frame consumed by `check_signal`:
the OHLCV fields plus the columns added by `compute_indicators`.  Indicator
columns are `Option ℚ` because they are `NaN` during warm-up. -/
structure Row where
  timestamp : Int := 0
  open_ : ℚ := 0
  high : ℚ := 0
  low : ℚ := 0
  close : ℚ := 0
  volume : ℚ := 0
  ema_short : Option ℚ := none
  ema_long : Option ℚ := none
  rsi : Option ℚ := none
  macd : Option ℚ := none
  macd_sig : Option ℚ := none
  macd_hist : Option ℚ := none
  vol_avg_10 : Option ℚ := none
deriving DecidableEq, Repr, Inhabited

/-- Python `x > y` where either side may be NaN: `False` on NaN. -/
def ngt (x y : Option ℚ) : Bool :=
  match x, y with
  | some a, some b => decide (b < a)
  | _, _ => false

/-- Python `x < y` where either side may be NaN: `False` on NaN. -/
def nlt (x y : Option ℚ) : Bool :=
  match x, y with
  | some a, some b => decide (a < b)
  | _, _ => false

/-- Python `x >= y` where either side may be NaN: `False` on NaN. -/
def nge (x y : Option ℚ) : Bool :=
  match x, y with
  | some a, some b => decide (b ≤ a)
  | _, _ => false

/-- Python `x <= y` where either side may be NaN: `False` on NaN. -/
def nle (x y : Option ℚ) : Bool :=
  match x, y with
  | some a, some b => decide (a ≤ b)
  | _, _ => false

/-- The volume check of `check_signal`: `vol_ok` is `False` when `vol_avg_10`
is NaN, else `volume > vol_avg_10 * vol_multiplier`. -/
def volOk (cfg : StrategyConfig) (latest : Row) : Bool :=
  match latest.vol_avg_10 with
  | none => false
  | some va => decide (va * cfg.vol_multiplier < latest.volume)

/-- The EMA-difference trend clarity of `check_signal`:
`abs((ema_s - ema_l) / ema_l) * 100 if ema_l != 0 else 0`. -/
def emaDiffPct (es el : ℚ) : ℚ :=
  if el ≠ 0 then |(es - el) / el| * 100 else 0

/-- The flag `trend_clear = ema_diff_pct > trend_threshold_pct`. -/
def trendClear (cfg : StrategyConfig) (es el : ℚ) : Bool :=
  decide (cfg.trend_threshold_pct < emaDiffPct es el)

/-- The flag `macd_bull = macd > macd_signal and macd_hist > 0` (NaN compares
`False`). -/
def macdBull (latest : Row) : Bool :=
  ngt latest.macd latest.macd_sig && ngt latest.macd_hist (some 0)

/-- The flag `macd_bear = macd < macd_signal and macd_hist < 0` (NaN compares
`False`). -/
def macdBear (latest : Row) : Bool :=
  nlt latest.macd latest.macd_sig && nlt latest.macd_hist (some 0)

/-- LONG RSI band: `rsi >= 45 and rsi <= 70` (NaN compares `False`). -/
def rsiLongOk (latest : Row) : Bool :=
  nge latest.rsi (some 45) && nle latest.rsi (some 70)

/-- SHORT RSI band: `rsi >= 30 and rsi <= 55` (NaN compares `False`). -/
def rsiShortOk (latest : Row) : Bool :=
  nge latest.rsi (some 30) && nle latest.rsi (some 55)

/-- The condition `buy_cond` of `check_signal`, with the already-unwrapped EMA values
`es`, `el` (the source reaches this point only after the `pd.isna` guard on
both EMAs). -/
def buy_cond (cfg : StrategyConfig) (latest : Row) (es el : ℚ) : Bool :=
  decide (el < es) && macdBull latest && volOk cfg latest &&
    rsiLongOk latest && trendClear cfg es el

/-- The condition `sell_cond` of `check_signal`, mirror of `buy_cond`. -/
def sell_cond (cfg : StrategyConfig) (latest : Row) (es el : ℚ) : Bool :=
  decide (es < el) && macdBear latest && volOk cfg latest &&
    rsiShortOk latest && trendClear cfg es el

/-- The detail record built by `check_signal` when a signal fires. -/
structure Details where
  type_ : String
  symbol : String
  timeframe : String
  price : ℚ
  ema_short : ℚ
  ema_long : ℚ
  rsi : Option ℚ
  macd : Option ℚ
  macd_sig : Option ℚ
  vol : ℚ
  vol_avg_10 : Option ℚ
deriving DecidableEq, Repr

/-- The `details` dict literal of `check_signal` (identical for both
branches except the `type` field). -/
def mkDetails (ty symbol timeframe : String) (latest : Row) (es el : ℚ) :
    Details :=
  { type_ := ty
    symbol := symbol
    timeframe := timeframe
    price := latest.close
    ema_short := es
    ema_long := el
    rsi := latest.rsi
    macd := latest.macd
    macd_sig := latest.macd_sig
    vol := latest.volume
    vol_avg_10 := latest.vol_avg_10 }

/-- src/strategy.py `check_signal(df, timeframe, symbol)`: returns
`(signal or None, details or None)`.  `df is None or len(df) < 15` is the
insufficient-history guard; `latest = df.iloc[-1]` (the row `prev =
df.iloc[-2]` is bound in the source but never used); then the `pd.isna`
guard on the two EMAs, then `buy_cond` / `elif sell_cond` / no signal. -/
def check_signal (cfg : StrategyConfig) (df : Option (List Row))
    (timeframe symbol : String) : Option String × Option Details :=
  match df with
  | none => (none, none)
  | some rows =>
    if rows.length < 15 then (none, none)
    else
      match rows.getLast? with
      | none => (none, none)
      | some latest =>
        match latest.ema_short, latest.ema_long with
        | some es, some el =>
          if buy_cond cfg latest es el then
            (some "BUY LONG", some (mkDetails "LONG" symbol timeframe latest es el))
          else if sell_cond cfg latest es el then
            (some "SELL SHORT", some (mkDetails "SHORT" symbol timeframe latest es el))
          else (none, none)
        | _, _ => (none, none)

/-- Number of candles of a possibly missing window (`None` has none). -/
def winLen : Option (List Row) → Nat
  | none => 0
  | some rows => rows.length

/-- src/strategy.py `calculate_tp_sl(price, signal_type)`: take profit and
stop loss from the configured percentages; any `signal_type` other than
`'LONG'` takes the SHORT branch (the source's `else`). -/
def calculate_tp_sl (cfg : StrategyConfig) (price : ℚ) (signal_type : String) :
    ℚ × ℚ :=
  if signal_type = "LONG" then
    (price * (1 + cfg.tp_percent / 100), price * (1 - cfg.sl_percent / 100))
  else
    (price * (1 - cfg.tp_percent / 100), price * (1 + cfg.sl_percent / 100))

end Strategy

namespace BotMain

/-- The `utils.guard_dataframe` of src/main.py: checks the required columns
exist, coerces `close` to numeric and drops rows whose `close` is NaN, on a
copy.  In this embedding a `Candle` always has all six fields and `close`
is a total `ℚ`, so the function is the identity on the value; the copying
aspect is modelled separately in the heap-based pipeline below. -/
def guard_dataframe (df : List Candle) : List Candle := df

/-- The dict returned by src/main.py `compute_indicators`: one optional
series per indicator key, present only when the indicator was requested.
`EMA_20` is a total series (an `ewm` of NaN-free closes has no NaN);
`SMA_20` and `RSI_14` have NaN warm-ups. -/
structure IndicatorsOut where
  sma20 : Option (List (Option ℚ)) := none
  ema20 : Option (List ℚ) := none
  rsi14 : Option (List (Option ℚ)) := none
deriving DecidableEq, Repr, Inhabited

/-- src/main.py `compute_indicators(df, indicators)`: guard the frame, then
compute each requested indicator of the close series into the output dict. -/
def compute_indicators (df : List Candle) (indicators : List String) :
    IndicatorsOut :=
  let df := guard_dataframe df
  let close := df.map (·.close)
  { sma20 := if "SMA_20" ∈ indicators then some (sma 20 close) else none
    ema20 := if "EMA_20" ∈ indicators then some (ema 20 close) else none
    rsi14 := if "RSI_14" ∈ indicators then some (rsi 14 close) else none }

/-- src/main.py `generate_signals(df, indicators_dict)`: empty frame or a
missing `EMA_20`/`RSI_14` entry gives no signals; a NaN last RSI gives no
signals (`pd.isna(rsi_last)`; the last EMA of a NaN-free close series is
never NaN, so that half of the source's isna check is vacuous); otherwise
`close > EMA and RSI < 70` appends `"Buy Long"` and `close < EMA and
RSI > 30` appends `"Buy Short"` — two separate `if`s, not `elif`.  The
`iloc[-1]` reads are total here via `getLast?`; the empty-series case is
unreachable in the source because the dict is always computed from the same
frame. -/
def generate_signals (df : List Candle) (inds : IndicatorsOut) : List String :=
  if df.length = 0 then []
  else
    match df.getLast?, inds.ema20, inds.rsi14 with
    | some lastC, some emaS, some rsiS =>
      match emaS.getLast?, rsiS.getLast? with
      | some ema_last, some rsi_last_opt =>
        match rsi_last_opt with
        | none => []
        | some rsi_last =>
          (if ema_last < lastC.close ∧ rsi_last < 70 then ["Buy Long"] else []) ++
          (if lastC.close < ema_last ∧ 30 < rsi_last then ["Buy Short"] else [])
      | _, _ => []
    | _, _, _ => []

/-- The body of `run_reverse_test`'s loop at index `i`: slice the first
`i + 1` rows of the reversed frame, compute the requested indicators on the
slice, and evaluate the signals on it. -/
def stepSignals (indicators : List String) (df_reversed : List Candle)
    (i : Nat) : List String :=
  let window := df_reversed.take (i + 1)
  generate_signals window (compute_indicators window indicators)

/-- A collected entry of `run_reverse_test`:
`{"timestamp": int(ts), "signals": sigs, "index": i}`. -/
structure RTEntry where
  timestamp : Int
  signals : List String
  index : Nat
deriving DecidableEq, Repr

/-- The summary dict of `run_reverse_test`:
`{"symbol":…, "total_checks":…, "found":…}`. -/
structure RTSummary where
  symbol : String
  total_checks : Nat
  found : Nat
deriving DecidableEq, Repr

/-- The dict returned by `run_reverse_test`. -/
structure RTResult where
  summary : RTSummary
  details : List RTEntry
deriving DecidableEq, Repr

/-- src/main.py `run_reverse_test(symbol, indicators, steps)` from the
point where the historical frame has been fetched (`fetch_historical` is
the external market-data collaborator; `df` is the window it returned):
guard, reverse the chronological order, then for `i in range(30,
len(df_reversed))` evaluate the signals on the first `i + 1` rows and
collect `{timestamp of last candle in the slice, signals, i}` whenever the
signal list is nonempty; finally return the collected list and the
summary. -/
def run_reverse_test (symbol : String) (indicators : List String)
    (df : List Candle) : RTResult :=
  let df := guard_dataframe df
  let df_reversed := df.reverse
  let collected := (List.range' 30 (df_reversed.length - 30)).filterMap
    (fun i =>
      let sigs := stepSignals indicators df_reversed i
      if sigs.isEmpty then none
      else ((df_reversed.take (i + 1)).getLast?).map
        (fun c => { timestamp := c.timestamp, signals := sigs, index := i }))
  { summary :=
      { symbol := symbol
        total_checks := df_reversed.length
        found := collected.length }
    details := collected }

/-- Heap-based rendering of `compute_indicators` making Python aliasing
explicit for the frame claim: frames live in a store indexed by position,
`guard_dataframe`'s `df.copy()` allocates a fresh slot, and the output dict
is computed from the copy.  The input slot is never written. -/
def compute_indicators_heap (h : List (List Candle)) (r : Nat)
    (indicators : List String) : List (List Candle) × IndicatorsOut :=
  let df := h.getD r []
  let g := guard_dataframe df
  let h := h ++ [g]
  (h, compute_indicators g indicators)

end BotMain

namespace Strategy

/-- Pandas `ewm(alpha, min_periods, adjust=False).mean()` over a series whose only
NaNs are a leading block (which is the shape of every series the ta
library feeds it: `diff` output and the MACD line).  State: the current
smoothed value (`none` before the first observation) and the number of
non-NaN observations so far; an output entry is NaN until `min_periods`
observations have been seen. -/
def ewmNanGo (a : ℚ) (minp : Nat) :
    Option ℚ → Nat → List (Option ℚ) → List (Option ℚ)
  | _, _, [] => []
  | none, cnt, none :: xs => none :: ewmNanGo a minp none cnt xs
  | none, cnt, some v :: xs =>
    (if minp ≤ cnt + 1 then some v else none) ::
      ewmNanGo a minp (some v) (cnt + 1) xs
  | some s, cnt, none :: xs =>
    (if minp ≤ cnt then some s else none) :: ewmNanGo a minp (some s) cnt xs
  | some s, cnt, some v :: xs =>
    (if minp ≤ cnt + 1 then some (ewmStep a s v) else none) ::
      ewmNanGo a minp (some (ewmStep a s v)) (cnt + 1) xs

/-- Pandas `series.ewm(alpha, min_periods, adjust=False).mean()` (see
`ewmNanGo`). -/
def ewmNan (a : ℚ) (minp : Nat) (l : List (Option ℚ)) : List (Option ℚ) :=
  ewmNanGo a minp none 0 l

/-- The ta-library `ta.trend.EMAIndicator(close, window).ema_indicator()`:
`close.ewm(span=window, min_periods=window, adjust=False).mean()`. -/
def emaTA (window : Nat) (close : List ℚ) : List (Option ℚ) :=
  ewmNan (spanAlpha window) window (close.map some)

/-- The ta-library `ta.momentum.RSIIndicator(close, window).rsi()`: Wilder smoothing of
the up/down move series (`ewm(alpha=1/window, min_periods=window,
adjust=False)`), then `np.where(emadn == 0, 100, 100 - 100/(1 + rs))`;
NaN where the smoothed averages are NaN. -/
def rsiTA (window : Nat) (close : List ℚ) : List (Option ℚ) :=
  let d := diffL close
  let up := d.map (Option.map (fun x => if 0 < x then x else 0))
  let dn := d.map (Option.map (fun x => if x < 0 then -x else 0))
  let emaup := ewmNan (1 / (window : ℚ)) window up
  let emadn := ewmNan (1 / (window : ℚ)) window dn
  List.zipWith (fun u v =>
    match u, v with
    | some u, some v =>
      if v = 0 then some 100 else some (100 - 100 / (1 + u / v))
    | _, _ => none) emaup emadn

/-- The ta-library `ta.trend.MACD(...).macd()`: EMA(fast) - EMA(slow), each with
`min_periods` equal to its window. -/
def macdLine (fast slow : Nat) (close : List ℚ) : List (Option ℚ) :=
  zipNaN (fun a b => a - b) (emaTA fast close) (emaTA slow close)

/-- The ta-library `ta.trend.MACD(...).macd_signal()`: EMA of the MACD line with span and
`min_periods` equal to the signal window. -/
def macdSignalTA (fast slow sign : Nat) (close : List ℚ) : List (Option ℚ) :=
  ewmNan (spanAlpha sign) sign (macdLine fast slow close)

/-- The ta-library `ta.trend.MACD(...).macd_diff()`: MACD line minus signal line. -/
def macdHistTA (fast slow sign : Nat) (close : List ℚ) : List (Option ℚ) :=
  zipNaN (fun a b => a - b) (macdLine fast slow close)
    (macdSignalTA fast slow sign close)

/-- A pandas frame as a mutable Python object: the fetched OHLCV rows plus
the indicator columns assigned onto it. -/
structure PandasFrame where
  base : List Candle := []
  added : List (String × List (Option ℚ)) := []
deriving DecidableEq, Repr, Inhabited

/-- The store of live frame objects; a frame reference is an index. -/
abbrev Heap := List PandasFrame

/-- Replace the named column if present, else append it (the effect of
`df[name] = series`). -/
def upsertCol : List (String × List (Option ℚ)) → String →
    List (Option ℚ) → List (String × List (Option ℚ))
  | [], name, v => [(name, v)]
  | (n, w) :: rest, name, v =>
    if n = name then (n, v) :: rest else (n, w) :: upsertCol rest name v

/-- The assignment `df[name] = series` on the frame at reference `r`. -/
def setCol (h : Heap) (r : Nat) (name : String) (v : List (Option ℚ)) :
    Heap :=
  h.set r
    (let df := h.getD r default
     { df with added := upsertCol df.added name v })

/-- src/strategy.py `compute_indicators(df)` over the explicit heap:
`df = df.copy()` allocates a fresh frame at the end of the store, then the
seven indicator columns are assigned onto the copy; returns the new heap
and the reference to the copy.  Parameterised by the (global)
`strategy_cfg`. -/
def compute_indicators (cfg : StrategyConfig) (h : Heap) (r : Nat) :
    Heap × Nat :=
  let df := h.getD r default
  let r1 := h.length
  let h := h ++ [df]
  let close := df.base.map (·.close)
  let h := setCol h r1 "ema_short" (emaTA cfg.ema_short close)
  let h := setCol h r1 "ema_long" (emaTA cfg.ema_long close)
  let h := setCol h r1 "rsi" (rsiTA cfg.rsi_period close)
  let h := setCol h r1 "macd" (macdLine cfg.macd_fast cfg.macd_slow close)
  let h := setCol h r1 "macd_signal"
    (macdSignalTA cfg.macd_fast cfg.macd_slow cfg.macd_sign close)
  let h := setCol h r1 "macd_hist"
    (macdHistTA cfg.macd_fast cfg.macd_slow cfg.macd_sign close)
  let h := setCol h r1 "vol_avg_10" (sma 10 (df.base.map (·.volume)))
  (h, r1)

end Strategy

namespace Worker

/-- Observable steps of one iteration of `Worker.run` (src/worker.py):
a one-second chunk of the boundary wait, the two-second settle sleep after
candle close, the OHLCV fetch, and the indicator + signal evaluation. -/
inductive Ev where
  | sleep1
  | settle
  | fetch
  | evaluate
deriving DecidableEq, Repr

/-- The predicate `self.stopped()` as a function of elapsed whole seconds since the wait
began: `stopAt = some s` means the GUI's stop request sets `_stop_event`
at second `s`; `none` means no stop request arrives. -/
def stopped (stopAt : Option Nat) (t : Nat) : Bool :=
  match stopAt with
  | none => false
  | some s => decide (s ≤ t)

/-- The chunked boundary wait of `Worker.run`:
`for _ in range(int(sleep_for)): if self.stopped(): break; time.sleep(1)`,
started at elapsed time `t`. -/
def chunkSleep (stopAt : Option Nat) : Nat → Nat → List Ev
  | 0, _ => []
  | n + 1, t =>
    if stopped stopAt t then []
    else Ev.sleep1 :: chunkSleep stopAt n (t + 1)

/-- The trace of one iteration of `Worker.run` with a boundary wait of
`sleep_for` seconds, when the symbol/timeframe are set and the fetch
succeeds: if `sleep_for > 1`, the chunked sleep followed unconditionally by
the `time.sleep(2)` settle delay; then the fetch and the indicator/signal
evaluation.  The stop flag is consulted again only at the top of the next
`while not self.stopped()` iteration. -/
def cycleTrace (sleep_for : Nat) (stopAt : Option Nat) : List Ev :=
  (if 1 < sleep_for then chunkSleep stopAt sleep_for 0 ++ [Ev.settle]
   else []) ++ [Ev.fetch, Ev.evaluate]

end Worker

/-- A series transform computes every prefix of its output from the same
prefix of its input.  This is the shape of the no-look-ahead property: all
the repository's indicator transforms satisfy it. -/
def TakeComm {α β : Type} (f : List α → List β) : Prop :=
  ∀ (l : List α) (n : Nat), f (l.take n) = (f l).take n

-- Sanity checks of the embedding on tiny concrete inputs.
example : (sma 2 [1, 2, 3]).getD 1 none = some (3 / 2) := by
  norm_num [sma, byPos, List.range_succ, List.sum_cons]
example : (sma 2 [1, 2, 3]).getD 0 none = none := by
  norm_num [sma, byPos, List.range_succ]
example : ema 1 [1, 5] = [1, 5] := by
  norm_num [ema, emaGo, ewmStep, spanAlpha]
example : (diffL [4, 7, 6]).getD 2 none = some (-1) := by
  norm_num [diffL, byPos, List.range_succ]
example : (BotMain.rsi 2 [1, 2, 3]).getD 2 none = none := by
  norm_num [BotMain.rsi, diffL, byPos, rollingMeanOpt, clipLower0, negClipUpper0,
    zipNaN, List.range_succ, List.filterMap_cons, List.sum_cons]
example : (BotMain.rsi 2 [1, 2, 1]).getD 2 none = some 50 := by
  norm_num [BotMain.rsi, diffL, byPos, rollingMeanOpt, clipLower0, negClipUpper0,
    zipNaN, List.range_succ, List.filterMap_cons, List.sum_cons]

/-! ## Helper lemmas -/

theorem chunkSleep_eq_replicate (s : Nat) :
    ∀ (n t : Nat),
      Worker.chunkSleep (some s) n t =
        List.replicate (min (s - t) n) Worker.Ev.sleep1 := by
  intro n
  induction n with
  | zero => intro t; simp [Worker.chunkSleep]
  | succ m ih =>
    intro t
    unfold Worker.chunkSleep
    by_cases hst : s ≤ t
    · rw [if_pos (by simp [Worker.stopped, hst])]
      have : s - t = 0 := by omega
      simp [this]
    · rw [if_neg (by simp [Worker.stopped]; omega)]
      rw [ih (t + 1)]
      have hmin : min (s - t) (m + 1) = min (s - (t + 1)) m + 1 := by omega
      rw [hmin, List.replicate_succ]

/-- The evaluator `check_signal` unfolded on a window that passes the length guard and
whose latest EMAs are defined. -/
theorem check_signal_eq_ite (cfg : Strategy.StrategyConfig)
    (rows : List Strategy.Row) (timeframe symbol : String)
    (latest : Strategy.Row) (es el : ℚ)
    (h15 : ¬ rows.length < 15) (hl : rows.getLast? = some latest)
    (hes : latest.ema_short = some es) (hel : latest.ema_long = some el) :
    Strategy.check_signal cfg (some rows) timeframe symbol =
      (if Strategy.buy_cond cfg latest es el then
        (some "BUY LONG",
          some (Strategy.mkDetails "LONG" symbol timeframe latest es el))
      else if Strategy.sell_cond cfg latest es el then
        (some "SELL SHORT",
          some (Strategy.mkDetails "SHORT" symbol timeframe latest es el))
      else (none, none)) := by
  simp only [Strategy.check_signal, hl, hes, hel]
  rw [if_neg h15]

/-- Every one of the NaN-able factors of `buy_cond`/`sell_cond` being NaN
makes both conditions false. -/
theorem signal_conds_false_of_undef (cfg : Strategy.StrategyConfig)
    (latest : Strategy.Row) (es el : ℚ)
    (h : latest.rsi = none ∨ latest.macd = none ∨ latest.macd_sig = none ∨
      latest.macd_hist = none ∨ latest.vol_avg_10 = none) :
    Strategy.buy_cond cfg latest es el = false ∧
      Strategy.sell_cond cfg latest es el = false := by
  rcases h with h | h | h | h | h <;>
    simp [Strategy.buy_cond, Strategy.sell_cond, Strategy.macdBull,
      Strategy.macdBear, Strategy.rsiLongOk, Strategy.rsiShortOk,
      Strategy.volOk, Strategy.ngt, Strategy.nlt, Strategy.nge,
      Strategy.nle, h]

/-- Two guarded singleton appends where the guards cannot both hold have
at most one element. -/
theorem length_ite_append_le_one {α : Type} {a b : α} {p q : Prop}
    [Decidable p] [Decidable q] (h : p → q → False) :
    ((if p then [a] else []) ++ (if q then [b] else [])).length ≤ 1 := by
  by_cases hp : p
  · rw [if_pos hp, if_neg (fun hq => h hp hq)]
    simp
  · rw [if_neg hp]
    by_cases hq : q
    · rw [if_pos hq]; simp
    · rw [if_neg hq]; simp

/-! ## Claim theorems -/

/-- Shared short-window lemma: `check_signal` on a missing window or one
shorter than 15 rows yields `(None, None)`. -/
theorem check_signal_of_short_window (cfg : Strategy.StrategyConfig)
    (df : Option (List Strategy.Row)) (timeframe symbol : String)
    (h : Strategy.winLen df < 15) :
    Strategy.check_signal cfg df timeframe symbol = (none, none) := by
  cases df with
  | none => rfl
  | some rows =>
    simp only [Strategy.winLen] at h
    simp only [Strategy.check_signal]
    rw [if_pos h]

/-- C2: for every input window with fewer than 15 candles — a missing
(`None`) window counting as zero — and every strategy configuration, the
signal evaluator `check_signal` returns no signal and no detail record. -/
theorem check_signal_insufficient_history (cfg : Strategy.StrategyConfig)
    (df : Option (List Strategy.Row)) (timeframe symbol : String)
    (h : Strategy.winLen df < 15) :
    Strategy.check_signal cfg df timeframe symbol = (none, none) :=
  check_signal_of_short_window cfg df timeframe symbol h

theorem check_signal_insufficient_history_witness :
    Strategy.winLen none < 15 ∧
      Strategy.check_signal Strategy.strategy_cfg none "1m" "BTC/USDT" =
        (none, none) ∧
      Strategy.winLen (some [{ close := 5 }, { close := 6 }]) < 15 ∧
      Strategy.check_signal Strategy.strategy_cfg
          (some [{ close := 5 }, { close := 6 }]) "1m" "BTC/USDT" =
        (none, none) :=
  ⟨by decide, check_signal_insufficient_history _ _ _ _ (by decide),
    by decide, check_signal_insufficient_history _ _ _ _ (by decide)⟩

/-- C10: the decision and detail record of `check_signal` depend only on
the latest row: two windows of length at least 15 with the same last row
produce the same result, whatever the earlier rows (in particular the
previous row, which the source binds but never reads) contain. -/
theorem check_signal_depends_only_on_latest (cfg : Strategy.StrategyConfig)
    (rows₁ rows₂ : List Strategy.Row) (timeframe symbol : String)
    (h1 : 15 ≤ rows₁.length) (h2 : 15 ≤ rows₂.length)
    (hlast : rows₁.getLast? = rows₂.getLast?) :
    Strategy.check_signal cfg (some rows₁) timeframe symbol =
      Strategy.check_signal cfg (some rows₂) timeframe symbol := by
  simp only [Strategy.check_signal]
  rw [if_neg (by omega), if_neg (by omega), hlast]

theorem check_signal_depends_only_on_latest_witness :
    15 ≤ (List.replicate 15 ({ close := 3 } : Strategy.Row)).length ∧
    15 ≤ (({ close := 9 } : Strategy.Row) ::
      List.replicate 14 ({ close := 3 } : Strategy.Row)).length ∧
    Strategy.check_signal Strategy.strategy_cfg
        (some (List.replicate 15 ({ close := 3 } : Strategy.Row))) "1m" "X" =
      Strategy.check_signal Strategy.strategy_cfg
        (some (({ close := 9 } : Strategy.Row) ::
          List.replicate 14 ({ close := 3 } : Strategy.Row))) "1m" "X" :=
  ⟨by decide, by decide,
    check_signal_depends_only_on_latest _ _ _ _ _ (by decide) (by decide)
      (by decide)⟩

/-- C7: `calculate_tp_sl` computes, for any positive entry price and any
configured percentages, `tp = price*(1 + tpPct/100)` and
`sl = price*(1 - slPct/100)` for LONG and the mirror for SHORT; with
`price = 100`, LONG, `tpPct = 1.0`, `slPct = 0.5` it returns
`(101.0, 99.5)`. -/
theorem calculate_tp_sl_spec (cfg : Strategy.StrategyConfig) (price : ℚ)
    (hpos : 0 < price) :
    Strategy.calculate_tp_sl cfg price "LONG" =
      (price * (1 + cfg.tp_percent / 100), price * (1 - cfg.sl_percent / 100)) ∧
    Strategy.calculate_tp_sl cfg price "SHORT" =
      (price * (1 - cfg.tp_percent / 100), price * (1 + cfg.sl_percent / 100)) ∧
    Strategy.calculate_tp_sl
        { Strategy.strategy_cfg with tp_percent := 1, sl_percent := 1 / 2 }
        100 "LONG" = (101, 199 / 2) := by
  refine ⟨by simp [Strategy.calculate_tp_sl], by simp [Strategy.calculate_tp_sl], ?_⟩
  simp only [Strategy.calculate_tp_sl, if_pos rfl]
  norm_num

theorem calculate_tp_sl_spec_witness :
    (0 : ℚ) < 100 ∧
      Strategy.calculate_tp_sl
          { Strategy.strategy_cfg with tp_percent := 1, sl_percent := 1 / 2 }
          100 "LONG" = (101, 199 / 2) :=
  ⟨by norm_num, (calculate_tp_sl_spec Strategy.strategy_cfg 100 (by norm_num)).2.2⟩

/-- C4: at most one direction per call.  `buy_cond` and `sell_cond` are
mutually exclusive (they demand opposite EMA orderings), `check_signal`
tests `buy_cond` first and returns its branch on a match, and the second
evaluator `generate_signals` (src/main.py) also never emits more than one
signal, its two conditions demanding opposite close-vs-EMA orderings. -/
theorem signal_directions_exclusive :
    (∀ (cfg : Strategy.StrategyConfig) (latest : Strategy.Row) (es el : ℚ),
        ¬(Strategy.buy_cond cfg latest es el = true ∧
          Strategy.sell_cond cfg latest es el = true)) ∧
    (∀ (df : List Candle) (inds : BotMain.IndicatorsOut),
        (BotMain.generate_signals df inds).length ≤ 1) ∧
    (∀ (cfg : Strategy.StrategyConfig) (rows : List Strategy.Row)
        (timeframe symbol : String) (latest : Strategy.Row) (es el : ℚ),
        ¬ rows.length < 15 → rows.getLast? = some latest →
        latest.ema_short = some es → latest.ema_long = some el →
        Strategy.buy_cond cfg latest es el = true →
        Strategy.check_signal cfg (some rows) timeframe symbol =
          (some "BUY LONG",
            some (Strategy.mkDetails "LONG" symbol timeframe latest es el))) := by
  refine ⟨?_, ?_, ?_⟩
  · rintro cfg latest es el ⟨hb, hs⟩
    simp only [Strategy.buy_cond, Bool.and_eq_true, decide_eq_true_eq] at hb
    simp only [Strategy.sell_cond, Bool.and_eq_true, decide_eq_true_eq] at hs
    exact absurd hs.1.1.1.1 (lt_asymm hb.1.1.1.1)
  · intro df inds
    unfold BotMain.generate_signals
    split
    · simp
    · split
      · split
        · split
          · simp
          · apply length_ite_append_le_one
            rintro ⟨h1, _⟩ ⟨h2, _⟩
            exact lt_asymm h1 h2
        · simp
      · simp
  · intro cfg rows timeframe symbol latest es el h15 hl hes hel hb
    rw [check_signal_eq_ite cfg rows timeframe symbol latest es el h15 hl hes hel,
      if_pos hb]

theorem signal_directions_exclusive_witness :
    ¬ (15 : Nat) < 15 ∧
    Strategy.buy_cond Strategy.strategy_cfg
        { close := 100, volume := 100, ema_short := some 110,
          ema_long := some 100, rsi := some 50, macd := some 2,
          macd_sig := some 1, macd_hist := some 1, vol_avg_10 := some 10 }
        110 100 = true ∧
    Strategy.check_signal Strategy.strategy_cfg
        (some (List.replicate 14 ({} : Strategy.Row) ++
          [{ close := 100, volume := 100, ema_short := some 110,
             ema_long := some 100, rsi := some 50, macd := some 2,
             macd_sig := some 1, macd_hist := some 1,
             vol_avg_10 := some 10 }])) "1m" "X" =
      (some "BUY LONG",
        some (Strategy.mkDetails "LONG" "X" "1m"
          { close := 100, volume := 100, ema_short := some 110,
            ema_long := some 100, rsi := some 50, macd := some 2,
            macd_sig := some 1, macd_hist := some 1, vol_avg_10 := some 10 }
          110 100)) := by
  have habs : Strategy.emaDiffPct 110 100 = 10 := by
    unfold Strategy.emaDiffPct
    rw [if_pos (by norm_num), show ((110 : ℚ) - 100) / 100 = 1 / 10 by norm_num,
      abs_of_pos (by norm_num)]
    norm_num
  have hb : Strategy.buy_cond Strategy.strategy_cfg
      { close := 100, volume := 100, ema_short := some 110,
        ema_long := some 100, rsi := some 50, macd := some 2,
        macd_sig := some 1, macd_hist := some 1, vol_avg_10 := some 10 }
      110 100 = true := by
    simp only [Strategy.buy_cond, Strategy.macdBull, Strategy.volOk,
      Strategy.rsiLongOk, Strategy.trendClear, Strategy.ngt, Strategy.nge,
      Strategy.nle, Strategy.strategy_cfg, habs, Bool.and_eq_true,
      decide_eq_true_eq]
    norm_num
  refine ⟨by decide, hb, ?_⟩
  exact signal_directions_exclusive.2.2 Strategy.strategy_cfg _ "1m" "X" _ 110 100
    (by simp) (by simp) rfl rfl hb

/-- C3: an undefined (NaN) required indicator at the latest row — short
or long EMA, RSI, any of the three MACD values, or the 10-period volume
average — makes `check_signal` return no signal and no detail record; and
an undefined volume average makes the volume filter itself fail. -/
theorem check_signal_undefined_indicator :
    (∀ (cfg : Strategy.StrategyConfig) (rows : List Strategy.Row)
        (timeframe symbol : String) (latest : Strategy.Row),
        rows.getLast? = some latest →
        (latest.ema_short = none ∨ latest.ema_long = none ∨
          latest.rsi = none ∨ latest.macd = none ∨ latest.macd_sig = none ∨
          latest.macd_hist = none ∨ latest.vol_avg_10 = none) →
        Strategy.check_signal cfg (some rows) timeframe symbol =
          (none, none)) ∧
    (∀ (cfg : Strategy.StrategyConfig) (latest : Strategy.Row),
        latest.vol_avg_10 = none → Strategy.volOk cfg latest = false) := by
  constructor
  · intro cfg rows timeframe symbol latest hl hundef
    by_cases h15 : rows.length < 15
    · exact check_signal_of_short_window cfg (some rows) timeframe symbol h15
    · rcases hes : latest.ema_short with _ | es
      · simp only [Strategy.check_signal, hl, hes]
        rw [if_neg h15]
      · rcases hel : latest.ema_long with _ | el
        · simp only [Strategy.check_signal, hl, hes, hel]
          rw [if_neg h15]
        · have hundef' : latest.rsi = none ∨ latest.macd = none ∨
              latest.macd_sig = none ∨ latest.macd_hist = none ∨
              latest.vol_avg_10 = none := by
            rcases hundef with h | h | h | h | h | h | h
            · rw [hes] at h; cases h
            · rw [hel] at h; cases h
            all_goals tauto
          obtain ⟨hb, hs⟩ :=
            signal_conds_false_of_undef cfg latest es el hundef'
          rw [check_signal_eq_ite cfg rows timeframe symbol latest es el h15 hl
            hes hel, hb, hs]
          simp
  · intro cfg latest h
    simp [Strategy.volOk, h]

theorem check_signal_undefined_indicator_witness :
    (List.replicate 15
        ({ ema_short := some 1, ema_long := some 1 } : Strategy.Row)).getLast? =
      some ({ ema_short := some 1, ema_long := some 1 } : Strategy.Row) ∧
    ({ ema_short := some 1, ema_long := some 1 } : Strategy.Row).rsi = none ∧
    Strategy.check_signal Strategy.strategy_cfg
        (some (List.replicate 15
          ({ ema_short := some 1, ema_long := some 1 } : Strategy.Row)))
        "5m" "ETH/USDT" = (none, none) ∧
    Strategy.volOk Strategy.strategy_cfg ({} : Strategy.Row) = false :=
  ⟨by decide, rfl,
    check_signal_undefined_indicator.1 Strategy.strategy_cfg
      (List.replicate 15
        ({ ema_short := some 1, ema_long := some 1 } : Strategy.Row))
      "5m" "ETH/USDT"
      ({ ema_short := some 1, ema_long := some 1 } : Strategy.Row)
      (by decide) (Or.inr (Or.inr (Or.inl rfl))),
    check_signal_undefined_indicator.2 Strategy.strategy_cfg
      ({} : Strategy.Row) rfl⟩

/-- C1 counterexample: with a 10-second boundary wait and the stop flag
already set when the wait begins (second 0, i.e. during the wait), the
cycle trace of `Worker.run` still contains the fetch and the signal
evaluation — the stop only ends the chunked sleep, after which the
2-second settle sleep, the fetch and the evaluation all run before the
loop-head check can exit.  This refutes the claim that no fetch and no
evaluation happen for that cycle (and with them the ~1-second transition
to idle). -/
theorem stop_during_wait_cex :
    0 < 10 ∧
    Worker.cycleTrace 10 (some 0) =
      [Worker.Ev.settle, Worker.Ev.fetch, Worker.Ev.evaluate] ∧
    Worker.Ev.fetch ∈ Worker.cycleTrace 10 (some 0) ∧
    Worker.Ev.evaluate ∈ Worker.cycleTrace 10 (some 0) := by
  decide

/-- C1 amended: if stop is requested at second `s` of a boundary wait of
`n > 1` seconds, the chunked sleep performs exactly `s` one-second sleeps —
so the wait itself ends within a second of the request — but the cycle
still performs the 2-second settle sleep, the fetch, and the signal
evaluation before the worker's loop-head check observes the (still set)
stop flag and exits. -/
theorem stop_during_wait_cycle (n s : Nat) (h1 : 1 < n) (hs : s < n) :
    Worker.cycleTrace n (some s) =
      List.replicate s Worker.Ev.sleep1 ++
        [Worker.Ev.settle, Worker.Ev.fetch, Worker.Ev.evaluate] ∧
    (∀ t, s ≤ t → Worker.stopped (some s) t = true) := by
  constructor
  · unfold Worker.cycleTrace
    rw [if_pos h1, chunkSleep_eq_replicate]
    have : min (s - 0) n = s := by omega
    rw [this, List.append_assoc]
    rfl
  · intro t ht
    simp [Worker.stopped, ht]

theorem stop_during_wait_cycle_witness :
    1 < 10 ∧ 3 < 10 ∧
    Worker.cycleTrace 10 (some 3) =
      List.replicate 3 Worker.Ev.sleep1 ++
        [Worker.Ev.settle, Worker.Ev.fetch, Worker.Ev.evaluate] :=
  ⟨by decide, by decide,
    (stop_during_wait_cycle 10 3 (by decide) (by decide)).1⟩

/-! ## Prefix locality of the indicator transforms -/

theorem getD_take_of_lt {α : Type} (l : List α) (n j : Nat) (d : α)
    (h : j < n) : (l.take n).getD j d = l.getD j d := by
  rw [List.getD_eq_getElem?_getD, List.getD_eq_getElem?_getD,
    List.getElem?_take, if_pos h]

theorem take_take_of_le {α : Type} (l : List α) (n m : Nat) (h : m ≤ n) :
    (l.take n).take m = l.take m := by
  rw [List.take_take, min_eq_left h]

/-- A positionally defined series commutes with `take` as soon as its
per-index kernel only looks at the prefix up to that index. -/
theorem byPos_take {α β : Type} (g : List α → Nat → β)
    (hg : ∀ (l : List α) (n i : Nat), i < n → g (l.take n) i = g l i)
    (l : List α) (n : Nat) : byPos g (l.take n) = (byPos g l).take n := by
  unfold byPos
  rw [List.length_take, ← List.map_take, List.take_range]
  apply List.map_congr_left
  intro i hi
  rw [List.mem_range] at hi
  exact hg l n i (by omega)

theorem sma_take (p : Nat) (l : List ℚ) (n : Nat) :
    sma p (l.take n) = (sma p l).take n := by
  apply byPos_take
  intro l n i hi
  have h1 : (l.take n).take (i + 1) = l.take (i + 1) :=
    take_take_of_le l n (i + 1) (by omega)
  simp only [h1]

theorem diffL_take (l : List ℚ) (n : Nat) :
    diffL (l.take n) = (diffL l).take n := by
  apply byPos_take
  intro l n i hi
  by_cases h0 : i = 0
  · simp [h0]
  · rw [if_neg h0, if_neg h0, getD_take_of_lt l n i 0 hi,
      getD_take_of_lt l n (i - 1) 0 (by omega)]

theorem rollingMeanOpt_take (p : Nat) (l : List (Option ℚ)) (n : Nat) :
    rollingMeanOpt p (l.take n) = (rollingMeanOpt p l).take n := by
  apply byPos_take
  intro l n i hi
  have h1 : (l.take n).take (i + 1) = l.take (i + 1) :=
    take_take_of_le l n (i + 1) (by omega)
  simp only [h1]

theorem clipLower0_take (l : List (Option ℚ)) (n : Nat) :
    clipLower0 (l.take n) = (clipLower0 l).take n :=
  List.map_take _ l n

theorem negClipUpper0_take (l : List (Option ℚ)) (n : Nat) :
    negClipUpper0 (l.take n) = (negClipUpper0 l).take n :=
  List.map_take _ l n

theorem zipNaN_take (f : ℚ → ℚ → ℚ) (a b : List (Option ℚ)) (n : Nat) :
    zipNaN f (a.take n) (b.take n) = (zipNaN f a b).take n := by
  unfold zipNaN
  rw [List.take_zipWith]

theorem emaGo_take (a : ℚ) :
    ∀ (l : List ℚ) (p : ℚ) (n : Nat),
      emaGo a p (l.take n) = (emaGo a p l).take n := by
  intro l
  induction l with
  | nil => intro p n; simp [emaGo]
  | cons x xs ih =>
    intro p n
    cases n with
    | zero => simp [emaGo]
    | succ m =>
      simp only [List.take_succ_cons, emaGo]
      rw [ih]

theorem ema_take (p : Nat) (l : List ℚ) (n : Nat) :
    ema p (l.take n) = (ema p l).take n := by
  cases l with
  | nil => simp [ema]
  | cons x xs =>
    cases n with
    | zero => simp [ema]
    | succ m =>
      simp only [List.take_succ_cons, ema]
      rw [emaGo_take]

theorem rsi_utils_take (p : Nat) (l : List ℚ) (n : Nat) :
    Utils.rsi p (l.take n) = (Utils.rsi p l).take n := by
  simp only [Utils.rsi]
  rw [diffL_take, clipLower0_take, negClipUpper0_take, rollingMeanOpt_take,
    rollingMeanOpt_take, zipNaN_take, List.map_take]

theorem rsi_main_take (p : Nat) (l : List ℚ) (n : Nat) :
    BotMain.rsi p (l.take n) = (BotMain.rsi p l).take n := by
  simp only [BotMain.rsi]
  rw [diffL_take, clipLower0_take, negClipUpper0_take, rollingMeanOpt_take,
    rollingMeanOpt_take, List.map_take, zipNaN_take, List.map_take]

/-- Agreement on an input prefix transfers through any transform that
commutes with `take` (no-look-ahead, entrywise form). -/
theorem TakeComm.getD_congr {α β : Type} {f : List α → List β}
    (hf : TakeComm f) {l₁ l₂ : List α} {i j : Nat}
    (h : l₁.take (i + 1) = l₂.take (i + 1)) (hj : j ≤ i) (d : β) :
    (f l₁).getD j d = (f l₂).getD j d := by
  have e1 : (f l₁).take (i + 1) = (f l₂).take (i + 1) := by
    rw [← hf l₁ (i + 1), ← hf l₂ (i + 1), h]
  calc (f l₁).getD j d
      = ((f l₁).take (i + 1)).getD j d :=
        (getD_take_of_lt _ _ _ _ (by omega)).symm
    _ = ((f l₂).take (i + 1)).getD j d := by rw [e1]
    _ = (f l₂).getD j d := getD_take_of_lt _ _ _ _ (by omega)

/-- C5: no look-ahead.  If two close series agree on the first `i + 1`
values — i.e. one is a perturbation of the other strictly after position
`i` — then the moving average, the exponential average and both momentum
oscillators agree at every position `j ≤ i`; and the signal decision that
`run_reverse_test` computes on the prefix ending at `i` is identical for
two candle frames agreeing up to `i`. -/
theorem no_look_ahead :
    (∀ (p : Nat) (l₁ l₂ : List ℚ) (i j : Nat),
        l₁.take (i + 1) = l₂.take (i + 1) → j ≤ i →
        (sma p l₁).getD j none = (sma p l₂).getD j none) ∧
    (∀ (p : Nat) (l₁ l₂ : List ℚ) (i j : Nat),
        l₁.take (i + 1) = l₂.take (i + 1) → j ≤ i →
        (ema p l₁).getD j 0 = (ema p l₂).getD j 0) ∧
    (∀ (p : Nat) (l₁ l₂ : List ℚ) (i j : Nat),
        l₁.take (i + 1) = l₂.take (i + 1) → j ≤ i →
        (Utils.rsi p l₁).getD j none = (Utils.rsi p l₂).getD j none ∧
        (BotMain.rsi p l₁).getD j none = (BotMain.rsi p l₂).getD j none) ∧
    (∀ (indicators : List String) (df₁ df₂ : List Candle) (i : Nat),
        df₁.take (i + 1) = df₂.take (i + 1) →
        BotMain.stepSignals indicators df₁ i =
          BotMain.stepSignals indicators df₂ i) := by
  refine ⟨?_, ?_, ?_, ?_⟩
  · intro p l₁ l₂ i j h hj
    exact TakeComm.getD_congr (sma_take p) h hj none
  · intro p l₁ l₂ i j h hj
    exact TakeComm.getD_congr (ema_take p) h hj 0
  · intro p l₁ l₂ i j h hj
    exact ⟨TakeComm.getD_congr (rsi_utils_take p) h hj none,
      TakeComm.getD_congr (rsi_main_take p) h hj none⟩
  · intro indicators df₁ df₂ i h
    unfold BotMain.stepSignals
    rw [h]

theorem no_look_ahead_witness :
    ([1, 2, 3] : List ℚ).take 2 = ([1, 2, 7] : List ℚ).take 2 ∧
    (1 : Nat) ≤ 1 ∧
    (sma 2 [1, 2, 3]).getD 1 none = (sma 2 [1, 2, 7]).getD 1 none ∧
    (ema 2 [1, 2, 3]).getD 1 0 = (ema 2 [1, 2, 7]).getD 1 0 ∧
    (Utils.rsi 2 [1, 2, 3]).getD 1 none = (Utils.rsi 2 [1, 2, 7]).getD 1 none ∧
    BotMain.stepSignals ["EMA_20", "RSI_14"]
        [{ close := 4 }, { close := 5 }] 0 =
      BotMain.stepSignals ["EMA_20", "RSI_14"]
        [{ close := 4 }, { close := 6 }] 0 :=
  ⟨rfl, by decide,
    no_look_ahead.1 2 [1, 2, 3] [1, 2, 7] 1 1 rfl (by decide),
    no_look_ahead.2.1 2 [1, 2, 3] [1, 2, 7] 1 1 rfl (by decide),
    (no_look_ahead.2.2.1 2 [1, 2, 3] [1, 2, 7] 1 1 rfl (by decide)).1,
    no_look_ahead.2.2.2 ["EMA_20", "RSI_14"]
      [{ close := 4 }, { close := 5 }] [{ close := 4 }, { close := 6 }] 0 rfl⟩

/-! ## Frame property of the indicator pipeline -/

theorem getD_set_of_ne {α : Type} (l : List α) (i j : Nat) (a d : α)
    (h : i ≠ j) : (l.set i a).getD j d = l.getD j d := by
  rw [List.getD_eq_getElem?_getD, List.getD_eq_getElem?_getD,
    List.getElem?_set_ne h]

theorem getD_append_left {α : Type} (l₁ l₂ : List α) (r : Nat) (d : α)
    (h : r < l₁.length) : (l₁ ++ l₂).getD r d = l₁.getD r d := by
  rw [List.getD_eq_getElem?_getD, List.getD_eq_getElem?_getD,
    List.getElem?_append, if_pos h]

theorem getD_setCol_of_ne (h : Strategy.Heap) (s : Nat) (name : String)
    (v : List (Option ℚ)) (r : Nat) (hne : s ≠ r)
    (d : Strategy.PandasFrame) :
    (Strategy.setCol h s name v).getD r d = h.getD r d := by
  unfold Strategy.setCol
  exact getD_set_of_ne _ _ _ _ _ hne

/-- C9: computing indicators does not mutate the input window.  In the
explicit-heap rendering, `compute_indicators` of src/strategy.py copies the
frame and assigns all seven indicator columns onto the copy, leaving the
frame at the input reference untouched; `compute_indicators` of src/main.py
likewise builds its output dict from the copy `guard_dataframe` makes. -/
theorem compute_indicators_no_mutation :
    (∀ (cfg : Strategy.StrategyConfig) (h : Strategy.Heap) (r : Nat),
        r < h.length →
        ((Strategy.compute_indicators cfg h r).1).getD r default =
          h.getD r default) ∧
    (∀ (h : List (List Candle)) (r : Nat) (indicators : List String),
        r < h.length →
        ((BotMain.compute_indicators_heap h r indicators).1).getD r [] =
          h.getD r []) := by
  constructor
  · intro cfg h r hr
    simp only [Strategy.compute_indicators]
    rw [getD_setCol_of_ne _ _ _ _ _ (by omega), getD_setCol_of_ne _ _ _ _ _ (by omega),
      getD_setCol_of_ne _ _ _ _ _ (by omega), getD_setCol_of_ne _ _ _ _ _ (by omega),
      getD_setCol_of_ne _ _ _ _ _ (by omega), getD_setCol_of_ne _ _ _ _ _ (by omega),
      getD_setCol_of_ne _ _ _ _ _ (by omega), getD_append_left _ _ _ _ hr]
  · intro h r indicators hr
    simp only [BotMain.compute_indicators_heap]
    rw [getD_append_left _ _ _ _ hr]

theorem compute_indicators_no_mutation_witness :
    0 < ([({ base := [{ close := 5, volume := 2 }] } : Strategy.PandasFrame)] :
      Strategy.Heap).length ∧
    ((Strategy.compute_indicators Strategy.strategy_cfg
        [({ base := [{ close := 5, volume := 2 }] } : Strategy.PandasFrame)]
        0).1).getD 0 default =
      ([({ base := [{ close := 5, volume := 2 }] } : Strategy.PandasFrame)] :
        Strategy.Heap).getD 0 default ∧
    ((BotMain.compute_indicators_heap [[({ close := 5 } : Candle)]] 0
        ["EMA_20", "RSI_14"]).1).getD 0 [] =
      ([[({ close := 5 } : Candle)]] : List (List Candle)).getD 0 [] :=
  ⟨by decide,
    compute_indicators_no_mutation.1 Strategy.strategy_cfg
      [({ base := [{ close := 5, volume := 2 }] } : Strategy.PandasFrame)] 0
      (by decide),
    compute_indicators_no_mutation.2 [[({ close := 5 } : Candle)]] 0
      ["EMA_20", "RSI_14"] (by decide)⟩

/-- C8: `run_reverse_test` (from the point where the external market-data
collaborator has delivered the `steps`-candle window `df`) reverses the
window, evaluates the indicator pipeline and signal evaluator on the prefix
of the first `i + 1` reversed candles for every loop index `i` from the
minimum lookback 30 up to the full reversed length, records for each
evaluation with a nonempty signal list the timestamp of the last candle of
the prefix together with the prefix index, and returns the collected list
plus a summary carrying the symbol, `total_checks` (the reversed length)
and `found` equal to the number of collected entries. -/
theorem run_reverse_test_spec (symbol : String) (indicators : List String)
    (df : List Candle) :
    (BotMain.run_reverse_test symbol indicators df).summary.symbol = symbol ∧
    (BotMain.run_reverse_test symbol indicators df).summary.total_checks =
      df.reverse.length ∧
    (BotMain.run_reverse_test symbol indicators df).summary.found =
      (BotMain.run_reverse_test symbol indicators df).details.length ∧
    (∀ e ∈ (BotMain.run_reverse_test symbol indicators df).details,
        30 ≤ e.index ∧ e.index < df.reverse.length ∧
        e.signals = BotMain.stepSignals indicators df.reverse e.index ∧
        e.signals ≠ [] ∧
        ∃ c, (df.reverse.take (e.index + 1)).getLast? = some c ∧
          e.timestamp = c.timestamp) ∧
    (∀ i : Nat, 30 ≤ i → i < df.reverse.length →
        BotMain.stepSignals indicators df.reverse i ≠ [] →
        ∃ e ∈ (BotMain.run_reverse_test symbol indicators df).details,
          e.index = i ∧
          e.signals = BotMain.stepSignals indicators df.reverse i) := by
  refine ⟨rfl, rfl, rfl, ?_, ?_⟩
  · intro e he
    simp only [BotMain.run_reverse_test, BotMain.guard_dataframe] at he
    rw [List.mem_filterMap] at he
    obtain ⟨i, hi, hf⟩ := he
    rw [List.mem_range'_1] at hi
    by_cases hemp : (BotMain.stepSignals indicators df.reverse i).isEmpty = true
    · rw [if_pos hemp] at hf
      cases hf
    · rw [if_neg hemp, Option.map_eq_some'] at hf
      obtain ⟨c, hc, hec⟩ := hf
      subst hec
      refine ⟨?_, ?_, rfl, ?_, c, hc, rfl⟩
      · show 30 ≤ i
        omega
      · show i < df.reverse.length
        omega
      · show BotMain.stepSignals indicators df.reverse i ≠ []
        intro hnil
        exact hemp (by simp [hnil])
  · intro i h30 hn hne
    have hw : df.reverse.take (i + 1) ≠ [] := by
      intro h0
      have hlen := congrArg List.length h0
      rw [List.length_take] at hlen
      simp only [List.length_nil] at hlen
      omega
    obtain ⟨c, hc⟩ : ∃ c, (df.reverse.take (i + 1)).getLast? = some c := by
      cases hgl : (df.reverse.take (i + 1)).getLast? with
      | none => exact absurd (List.getLast?_eq_none_iff.mp hgl) hw
      | some c => exact ⟨c, rfl⟩
    refine ⟨{ timestamp := c.timestamp,
              signals := BotMain.stepSignals indicators df.reverse i,
              index := i }, ?_, rfl, rfl⟩
    simp only [BotMain.run_reverse_test, BotMain.guard_dataframe]
    rw [List.mem_filterMap]
    refine ⟨i, ?_, ?_⟩
    · rw [List.mem_range'_1]
      omega
    · rw [if_neg (by rw [List.isEmpty_eq_false.mpr hne]; exact Bool.false_ne_true),
        hc]
      rfl

theorem run_reverse_test_spec_witness :
    (BotMain.run_reverse_test "TURBO/USDT" ["EMA_20", "RSI_14"]
        []).summary.symbol = "TURBO/USDT" ∧
    (BotMain.run_reverse_test "TURBO/USDT" ["EMA_20", "RSI_14"]
        []).summary.found =
      (BotMain.run_reverse_test "TURBO/USDT" ["EMA_20", "RSI_14"]
        []).details.length :=
  ⟨(run_reverse_test_spec "TURBO/USDT" ["EMA_20", "RSI_14"] []).1,
    (run_reverse_test_spec "TURBO/USDT" ["EMA_20", "RSI_14"] []).2.2.1⟩

/-! ## Definedness of the epsilon-guarded momentum oscillator -/

theorem length_byPos {α β : Type} (g : List α → Nat → β) (l : List α) :
    (byPos g l).length = l.length := by
  simp [byPos]

theorem getElem_byPos {α β : Type} (g : List α → Nat → β) (l : List α)
    (i : Nat) (h : i < (byPos g l).length) :
    (byPos g l)[i] = g l i := by
  unfold byPos at h ⊢
  simp [List.getElem_map, List.getElem_range]

theorem length_diffL (l : List ℚ) : (diffL l).length = l.length := by
  simp [diffL, length_byPos]

theorem length_clipLower0 (l : List (Option ℚ)) :
    (clipLower0 l).length = l.length := by
  simp [clipLower0]

theorem length_negClipUpper0 (l : List (Option ℚ)) :
    (negClipUpper0 l).length = l.length := by
  simp [negClipUpper0]

theorem length_rollingMeanOpt (p : Nat) (l : List (Option ℚ)) :
    (rollingMeanOpt p l).length = l.length := by
  simp [rollingMeanOpt, length_byPos]

theorem length_zipNaN (f : ℚ → ℚ → ℚ) (a b : List (Option ℚ)) :
    (zipNaN f a b).length = min a.length b.length := by
  simp [zipNaN]

theorem length_rsi_utils (p : Nat) (l : List ℚ) :
    (Utils.rsi p l).length = l.length := by
  simp [Utils.rsi, length_zipNaN, length_rollingMeanOpt, length_clipLower0,
    length_negClipUpper0, length_diffL]

theorem diffL_getElem_isSome (l : List ℚ) (j : Nat)
    (h : j < (diffL l).length) (h0 : j ≠ 0) :
    ((diffL l)[j]).isSome = true := by
  unfold diffL at h ⊢
  rw [getElem_byPos]
  rw [if_neg h0]
  rfl

theorem gains_getElem_isSome (fn : ℚ → ℚ) (l : List ℚ) (j : Nat)
    (h : j < ((diffL l).map (Option.map fn)).length) (h0 : j ≠ 0) :
    (((diffL l).map (Option.map fn))[j]).isSome = true := by
  rw [List.getElem_map, Option.isSome_map']
  exact diffL_getElem_isSome l j (by simpa using h) h0

theorem all_isSome_drop_take (A : List (Option ℚ)) (m n : Nat)
    (hA : ∀ (j : Nat) (hj : j < A.length), m ≤ j → (A[j]).isSome = true) :
    (((A.take n).drop m).all Option.isSome) = true := by
  rw [List.all_eq_true]
  intro x hx
  rw [List.mem_iff_getElem] at hx
  obtain ⟨k, hk, hkx⟩ := hx
  have hk' : m + k < (A.take n).length := by
    simp only [List.length_drop] at hk
    omega
  have hk'' : m + k < A.length := by
    simp only [List.length_take] at hk'
    omega
  rw [List.getElem_drop, List.getElem_take] at hkx
  rw [← hkx]
  exact hA (m + k) hk'' (by omega)

theorem getElem?_byPos {α β : Type} (g : List α → Nat → β) (l : List α)
    (i : Nat) (h : i < l.length) : (byPos g l)[i]? = some (g l i) := by
  have hb : i < (byPos g l).length := by rw [length_byPos]; exact h
  rw [List.getElem?_eq_getElem hb, getElem_byPos]

theorem getElem?_zipWith_eq {α β γ : Type} (f : α → β → γ) :
    ∀ (a : List α) (b : List β) (i : Nat),
      (List.zipWith f a b)[i]? =
        match a[i]?, b[i]? with
        | some x, some y => some (f x y)
        | _, _ => none := by
  intro a
  induction a with
  | nil => intro b i; cases b <;> cases i <;> simp
  | cons x xs ih =>
    intro b i
    cases b with
    | nil => cases i <;> simp
    | cons y ys =>
      cases i with
      | zero => simp
      | succ j => simpa using ih ys j

theorem rollingMeanOpt_getElem?_defined (p : Nat) (A : List (Option ℚ))
    (i : Nat) (hi : i < A.length) (hp : p ≤ i + 1)
    (hall : (((A.take (i + 1)).drop (i + 1 - p)).all Option.isSome) = true) :
    (rollingMeanOpt p A)[i]? =
      some (some ((((A.take (i + 1)).drop (i + 1 - p)).filterMap id).sum / p)) := by
  unfold rollingMeanOpt
  rw [getElem?_byPos _ _ _ hi]
  simp [hp, hall]

/-- C6 amended, part for src/utils.py: thanks to the `+ 1e-8`
epsilon guard, the momentum oscillator is defined (not NaN) at every index
past the warm-up, i.e. wherever both rolling averages have a full,
NaN-free window — which is every index `i` with `p ≤ i < length`. -/
theorem rsi_utils_defined (p : Nat) (l : List ℚ) (i : Nat)
    (hp : 0 < p) (hpi : p ≤ i) (hil : i < l.length) :
    ((Utils.rsi p l).getD i none).isSome = true := by
  have hgain : ∀ (j : Nat) (hj : j < (clipLower0 (diffL l)).length),
      i + 1 - p ≤ j → ((clipLower0 (diffL l))[j]).isSome = true := by
    intro j hj hmj
    exact gains_getElem_isSome _ l j (by simpa [clipLower0] using hj)
      (by omega)
  have hloss : ∀ (j : Nat) (hj : j < (negClipUpper0 (diffL l)).length),
      i + 1 - p ≤ j → ((negClipUpper0 (diffL l))[j]).isSome = true := by
    intro j hj hmj
    exact gains_getElem_isSome _ l j (by simpa [negClipUpper0] using hj)
      (by omega)
  have hG := rollingMeanOpt_getElem?_defined p (clipLower0 (diffL l)) i
    (by rw [length_clipLower0, length_diffL]; exact hil) (by omega)
    (all_isSome_drop_take _ _ _ hgain)
  have hL := rollingMeanOpt_getElem?_defined p (negClipUpper0 (diffL l)) i
    (by rw [length_negClipUpper0, length_diffL]; exact hil) (by omega)
    (all_isSome_drop_take _ _ _ hloss)
  simp only [Utils.rsi]
  rw [List.getD_eq_getElem?_getD, List.getElem?_map]
  unfold zipNaN
  rw [getElem?_zipWith_eq, hG, hL]
  rfl

/-- C6 counterexample: the claim "the momentum oscillator's zero
average-loss case is guarded and never NaN-propagating" is false for the
`rsi` copy embedded in src/main.py: on the strictly increasing series
`1, …, 15` (15 values, at least the 14-value lookback) the 14-period
average loss at the last index is exactly zero, `replace(0, nan)` turns it
into NaN, and the resulting oscillator value is NaN. -/
theorem rsi_main_nan_cex :
    ([1, 2, 3, 4, 5, 6, 7, 8, 9, 10, 11, 12, 13, 14, 15] : List ℚ).length =
      15 ∧
    (BotMain.rsi 14
        [1, 2, 3, 4, 5, 6, 7, 8, 9, 10, 11, 12, 13, 14, 15]).getD 14 none =
      none := by
  constructor
  · decide
  · norm_num [BotMain.rsi, diffL, byPos, rollingMeanOpt, clipLower0,
      negClipUpper0, zipNaN, List.range_succ, List.filterMap_cons,
      List.sum_cons]

/-- C6 amended: the zero average-loss guard differs between the two copies
of the momentum oscillator.  src/utils.py adds the epsilon `1e-8` to the
average loss, so the oscillator is defined (never NaN) at every index past
the warm-up; the copy in src/main.py instead replaces a zero average loss
by NaN and propagates it to the output (concretely NaN on the strictly
increasing 15-value series at the last index). -/
theorem rsi_zero_loss_guard :
    (∀ (p : Nat) (l : List ℚ) (i : Nat), 0 < p → p ≤ i → i < l.length →
        ((Utils.rsi p l).getD i none).isSome = true) ∧
    (BotMain.rsi 14
        [1, 2, 3, 4, 5, 6, 7, 8, 9, 10, 11, 12, 13, 14, 15]).getD 14 none =
      none := by
  constructor
  · intro p l i hp hpi hil
    exact rsi_utils_defined p l i hp hpi hil
  · norm_num [BotMain.rsi, diffL, byPos, rollingMeanOpt, clipLower0,
      negClipUpper0, zipNaN, List.range_succ, List.filterMap_cons,
      List.sum_cons]

theorem rsi_zero_loss_guard_witness :
    0 < 2 ∧ 2 ≤ 2 ∧ 2 < ([4, 7, 5, 6] : List ℚ).length ∧
    ((Utils.rsi 2 [4, 7, 5, 6]).getD 2 none).isSome = true :=
  ⟨by decide, by decide, by decide,
    rsi_zero_loss_guard.1 2 [4, 7, 5, 6] 2 (by decide) (by decide)
      (by decide)⟩

end Bot
